import Mathlib

/-!
Shallow embedding of the analytics core of a workout-tracker backend
(body analytics, calorie estimation, PR detection, streaks, muscle recovery).

Python floats are modelled as rationals.  Transcendental library functions
(math.log10, math.erf, math.sqrt 2, math.exp) have no rational closed form,
so they are passed as opaque oracle parameters; properties proved here hold
for every oracle, with explicit hypotheses (such as a bounded erf) where a
property genuinely depends on the oracle.  Python `round(x, n)` is modelled
as round-to-nearest at n decimal digits.
-/

namespace WorkoutTracker

/-- Python round(x, 1) over the rationals: round to the nearest tenth. -/
def round1 (x : ℚ) : ℚ := ((round (10 * x) : ℤ) : ℚ) / 10

/-- Python round(x, 2) over the rationals: round to the nearest hundredth. -/
def round2 (x : ℚ) : ℚ := ((round (100 * x) : ℤ) : ℚ) / 100

/-- Python round(x, 0) over the rationals (the source keeps it a float). -/
def round0 (x : ℚ) : ℚ := ((round x : ℤ) : ℚ)

theorem round_q_mono {a b : ℚ} (h : a ≤ b) : round a ≤ round b := by
  rw [round_eq, round_eq]
  exact Int.floor_mono (by linarith)

theorem round1_mono {a b : ℚ} (h : a ≤ b) : round1 a ≤ round1 b := by
  unfold round1
  have h10 : round (10 * a) ≤ round (10 * b) := round_q_mono (by linarith)
  have hc : ((round (10 * a) : ℤ) : ℚ) ≤ ((round (10 * b) : ℤ) : ℚ) := by
    exact_mod_cast h10
  linarith

theorem round1_int (n : ℤ) : round1 (n : ℚ) = n := by
  unfold round1
  have h : (10 : ℚ) * (n : ℚ) = ((10 * n : ℤ) : ℚ) := by push_cast; ring
  rw [h, round_intCast]
  push_cast
  field_simp

theorem round1_between {x : ℚ} (a b : ℤ) (h1 : (a : ℚ) ≤ x) (h2 : x ≤ (b : ℚ)) :
    (a : ℚ) ≤ round1 x ∧ round1 x ≤ (b : ℚ) := by
  constructor
  · have := round1_mono h1
    rwa [round1_int] at this
  · have := round1_mono h2
    rwa [round1_int] at this

/-! ## Basal metabolic rate (body_analytics.calc_bmr) -/

/-- Mifflin-St Jeor BMR, from `calc_bmr` in body_analytics.py. -/
def calc_bmr (weight_kg height_cm : ℚ) (age : ℤ) (sex : String) : ℚ :=
  let base := 10 * weight_kg + 625 / 100 * height_cm - 5 * age
  if sex = "male" then round1 (base + 5) else round1 (base - 161)

/-- C7: for every weight, height and age, BMR for sex "male" minus BMR for
sex "female" at the same inputs equals exactly 166. -/
theorem calc_bmr_male_female_diff (weight_kg height_cm : ℚ) (age : ℤ) :
    calc_bmr weight_kg height_cm age ( "male" ) -
      calc_bmr weight_kg height_cm age ( "female" ) = 166 := by
  unfold calc_bmr
  rw [if_pos rfl, if_neg (by decide)]
  set base := 10 * weight_kg + 625 / 100 * height_cm - 5 * (age : ℚ) with hbase
  unfold round1
  have h5 : 10 * (base + 5) = 10 * base + ((50 : ℤ) : ℚ) := by push_cast; ring
  have h161 : 10 * (base - 161) = 10 * base + ((-1610 : ℤ) : ℚ) := by push_cast; ring
  rw [h5, h161, round_add_int, round_add_int]
  push_cast
  ring

/-! ## Body-fat formulas (body_analytics.py) -/

def CM_TO_IN : ℚ := 1 / (254 / 100)

def KG_TO_LB : ℚ := 220462 / 100000

def BF_PCT_MIN : ℚ := 2

def BF_PCT_MAX : ℚ := 60

/-- `_clamp_bf` from body_analytics.py. -/
def _clamp_bf : Option ℚ → Option ℚ
  | none => none
  | some pct => some (round1 (max BF_PCT_MIN (min BF_PCT_MAX pct)))

theorem _clamp_bf_range {o : Option ℚ} {y : ℚ} (h : _clamp_bf o = some y) :
    2 ≤ y ∧ y ≤ 60 := by
  cases o with
  | none => simp [_clamp_bf] at h
  | some x =>
    simp only [_clamp_bf, Option.some.injEq] at h
    subst h
    have hlo : (2 : ℚ) ≤ max BF_PCT_MIN (min BF_PCT_MAX x) := le_max_left _ _
    have hhi : max BF_PCT_MIN (min BF_PCT_MAX x) ≤ (60 : ℚ) := by
      apply max_le
      · norm_num [BF_PCT_MIN]
      · exact le_trans (min_le_left _ _) (by norm_num [BF_PCT_MAX])
    have := round1_between (x := max BF_PCT_MIN (min BF_PCT_MAX x)) 2 60
      (by exact_mod_cast hlo) (by exact_mod_cast hhi)
    exact_mod_cast this

/-- U.S. Navy body-fat formula, from `calc_navy_bf`.  `log10` is the oracle
for `math.log10`; the explicit non-positivity guards model the
`except ValueError` branch around the logarithms in the source. -/
def calc_navy_bf (log10 : ℚ → ℚ) (sex : String) (height_cm : ℚ)
    (waist_cm neck_cm hips_cm : Option ℚ) : Option ℚ :=
  match waist_cm, neck_cm with
  | some waist, some neck =>
    if waist ≤ neck ∨ height_cm ≤ 0 then none
    else
      let waist_in := waist * CM_TO_IN
      let neck_in := neck * CM_TO_IN
      let height_in := height_cm * CM_TO_IN
      if sex = "male" then
        if waist_in - neck_in ≤ 0 ∨ height_in ≤ 0 then none
        else
          _clamp_bf (some (86010 / 1000 * log10 (waist_in - neck_in) -
            70041 / 1000 * log10 height_in + 3676 / 100))
      else
        match hips_cm with
        | none => none
        | some hips =>
          let hips_in := hips * CM_TO_IN
          if waist_in + hips_in - neck_in ≤ 0 ∨ height_in ≤ 0 then none
          else
            _clamp_bf (some (163205 / 1000 * log10 (waist_in + hips_in - neck_in) -
              97684 / 1000 * log10 height_in - 78387 / 1000))
  | _, _ => none

/-- U.S. Army 2024 one-site formula, from `calc_army_bf`.  `hips_cm` is
accepted and ignored exactly as in the source. -/
def calc_army_bf (sex : String) (weight_kg : ℚ) (waist_cm hips_cm : Option ℚ) :
    Option ℚ :=
  match waist_cm with
  | none => none
  | some waist =>
    if weight_kg ≤ 0 ∨ waist = 0 then none
    else
      let abdomen_in := waist * CM_TO_IN
      let weight_lb := weight_kg * KG_TO_LB
      if sex = "male" then
        _clamp_bf (some (-2697 / 100 - 12 / 100 * weight_lb + 199 / 100 * abdomen_in))
      else
        _clamp_bf (some (-915 / 100 - 15 / 1000 * weight_lb + 127 / 100 * abdomen_in))

/-- CUN-BAE body-fat equation, from `calc_cun_bae_bf`. -/
def calc_cun_bae_bf (weight_kg height_cm : ℚ) (age : ℤ) (sex : String) :
    Option ℚ :=
  if height_cm ≤ 0 ∨ weight_kg ≤ 0 then none
  else
    let height_m := height_cm / 100
    let bmi := weight_kg / height_m ^ 2
    let s : ℚ := if sex = "male" then 0 else 1
    _clamp_bf (some (-44988 / 1000 + 503 / 1000 * (age : ℚ) + 10689 / 1000 * s +
      3172 / 1000 * bmi - 26 / 1000 * bmi ^ 2 + 181 / 1000 * bmi * s -
      2 / 100 * bmi * (age : ℚ) - 5 / 1000 * bmi ^ 2 * s +
      21 / 100000 * bmi ^ 2 * (age : ℚ)))

/-- Relative Fat Mass, from `calc_rfm_bf`. -/
def calc_rfm_bf (sex : String) (height_cm : ℚ) (waist_cm : Option ℚ) : Option ℚ :=
  match waist_cm with
  | none => none
  | some waist =>
    if height_cm ≤ 0 ∨ waist = 0 ∨ waist ≤ 0 then none
    else if sex = "male" then _clamp_bf (some (64 - 20 * height_cm / waist))
    else _clamp_bf (some (76 - 20 * height_cm / waist))

/-- Multi-girth proxy, from `calc_multi_girth_bf`. -/
def calc_multi_girth_bf (weight_kg height_cm : ℚ) (sex : String)
    (waist_cm chest_cm hips_cm : Option ℚ) : Option ℚ :=
  match waist_cm, chest_cm, hips_cm with
  | some waist, some chest, some hips =>
    if height_cm ≤ 0 ∨ weight_kg ≤ 0 ∨ waist = 0 ∨ chest = 0 ∨ hips = 0 then none
    else
      let height_m := height_cm / 100
      let bmi := weight_kg / height_m ^ 2
      let waist_in := waist * CM_TO_IN
      let chest_in := chest * CM_TO_IN
      let hips_in := hips * CM_TO_IN
      if sex = "male" then
        _clamp_bf (some (1 / 2 * bmi + 4 / 10 * waist_in + 2 / 10 * hips_in -
          3 / 10 * chest_in - 15))
      else
        _clamp_bf (some (1 / 2 * bmi + 3 / 10 * waist_in + 4 / 10 * hips_in -
          2 / 10 * chest_in - 10))
  | _, _, _ => none

/-- Fat-Free Mass Index, from `calc_ffmi`. -/
def calc_ffmi (weight_kg height_cm : ℚ) (body_fat_pct : Option ℚ) : Option ℚ :=
  match body_fat_pct with
  | none => none
  | some bf =>
    if height_cm ≤ 0 then none
    else
      let height_m := height_cm / 100
      let lean_mass := weight_kg * (1 - bf / 100)
      some (round1 (lean_mass / height_m ^ 2 + 61 / 10 * (18 / 10 - height_m)))

/-- An optional body-fat value is absent or lands in the clamped interval. -/
def bfInRange (o : Option ℚ) : Prop := ∀ y : ℚ, o = some y → 2 ≤ y ∧ y ≤ 60

theorem bfInRange_none : bfInRange none := by
  intro y h
  exact absurd h (by simp)

theorem calc_navy_bf_range (log10 : ℚ → ℚ) (sex : String) (height_cm : ℚ)
    (waist_cm neck_cm hips_cm : Option ℚ) :
    bfInRange (calc_navy_bf log10 sex height_cm waist_cm neck_cm hips_cm) := by
  intro y h
  unfold calc_navy_bf at h
  repeat' first
    | exact _clamp_bf_range h
    | exact Option.noConfusion h
    | split at h
    | simp only [] at h

theorem calc_army_bf_range (sex : String) (weight_kg : ℚ)
    (waist_cm hips_cm : Option ℚ) :
    bfInRange (calc_army_bf sex weight_kg waist_cm hips_cm) := by
  intro y h
  unfold calc_army_bf at h
  repeat' first
    | exact _clamp_bf_range h
    | exact Option.noConfusion h
    | split at h
    | simp only [] at h

theorem calc_cun_bae_bf_range (weight_kg height_cm : ℚ) (age : ℤ) (sex : String) :
    bfInRange (calc_cun_bae_bf weight_kg height_cm age sex) := by
  intro y h
  unfold calc_cun_bae_bf at h
  repeat' first
    | exact _clamp_bf_range h
    | exact Option.noConfusion h
    | split at h
    | simp only [] at h

theorem calc_rfm_bf_range (sex : String) (height_cm : ℚ) (waist_cm : Option ℚ) :
    bfInRange (calc_rfm_bf sex height_cm waist_cm) := by
  intro y h
  unfold calc_rfm_bf at h
  repeat' first
    | exact _clamp_bf_range h
    | exact Option.noConfusion h
    | split at h
    | simp only [] at h

theorem calc_multi_girth_bf_range (weight_kg height_cm : ℚ) (sex : String)
    (waist_cm chest_cm hips_cm : Option ℚ) :
    bfInRange (calc_multi_girth_bf weight_kg height_cm sex waist_cm chest_cm hips_cm) := by
  intro y h
  unfold calc_multi_girth_bf at h
  repeat' first
    | exact _clamp_bf_range h
    | exact Option.noConfusion h
    | split at h
    | simp only [] at h

/-! ## Percentiles, symmetry and the master computation (body_analytics.py,
nhanes_data.py).  Measurement dictionaries are modelled as association lists
in insertion order, matching Python dict semantics. -/

/-- `_z_to_percentile`: Z-score to percentile via the error function.
`sqrt2` and `erf` are the oracles for `math.sqrt(2)` and `math.erf`. -/
def _z_to_percentile (sqrt2 : ℚ) (erf : ℚ → ℚ) (z : ℚ) : ℚ :=
  round1 (1 / 2 * (1 + erf (z / sqrt2)) * 100)

/-- `_compute_percentile` from body_analytics.py. -/
def _compute_percentile (sqrt2 : ℚ) (erf : ℚ → ℚ) (value mean std : ℚ) : ℚ :=
  if std ≤ 0 then 50 else _z_to_percentile sqrt2 erf ((value - mean) / std)

/-- The `NHANES_STATS` table from nhanes_data.py, as a lookup function. -/
def NHANES_STATS (sex : String) (key : String) : Option (ℚ × ℚ) :=
  if sex = "male" then
    if key = "chest" then some (1035 / 10, 98 / 10)
    else if key = "waist" then some (98, 142 / 10)
    else if key = "hips" then some (1038 / 10, 91 / 10)
    else if key = "neck" then some (395 / 10, 28 / 10)
    else if key = "shoulder" then some (119, 75 / 10)
    else if key = "bicep" then some (335 / 10, 42 / 10)
    else if key = "forearm" then some (285 / 10, 25 / 10)
    else if key = "thigh" then some (56, 6)
    else if key = "calf" then some (385 / 10, 35 / 10)
    else if key = "wrist" then some (175 / 10, 12 / 10)
    else if key = "ankle" then some (235 / 10, 18 / 10)
    else none
  else if sex = "female" then
    if key = "chest" then some (97, 115 / 10)
    else if key = "waist" then some (925 / 10, 155 / 10)
    else if key = "hips" then some (108, 12)
    else if key = "neck" then some (345 / 10, 25 / 10)
    else if key = "shoulder" then some (105, 7)
    else if key = "bicep" then some (30, 45 / 10)
    else if key = "forearm" then some (25, 25 / 10)
    else if key = "thigh" then some (575 / 10, 7)
    else if key = "calf" then some (37, 38 / 10)
    else if key = "wrist" then some (155 / 10, 1)
    else if key = "ankle" then some (22, 18 / 10)
    else none
  else none

def PAIRED_KEYS : List String := [ "bicep", "forearm", "thigh", "calf" ]

/-- Python `str.rstrip(chars)`: drop trailing characters drawn from `cs`. -/
def rstripChars (s : String) (cs : List Char) : String :=
  String.mk ((s.toList.reverse.dropWhile (fun c => cs.contains c)).reverse)

/-- `get_population_stats` from nhanes_data.py, including its
`rstrip`-based normalisation of `_l` / `_r` suffixes. -/
def get_population_stats (sex key : String) : Option (ℚ × ℚ) :=
  let base_key := rstripChars (rstripChars key [ '_', 'l' ]) [ '_', 'r' ]
  let key2 := if PAIRED_KEYS.contains base_key then base_key else key
  NHANES_STATS sex key2

/-- Lookup in an association-list dictionary. -/
def dictGet (d : List (String × ℚ)) (k : String) : Option ℚ :=
  (d.find? (fun p => p.1 == k)).map Prod.snd

/-- Python dict assignment: overwrite in place if the key exists, else
append, preserving insertion order. -/
def dictInsert (d : List (String × ℚ)) (k : String) (v : ℚ) : List (String × ℚ) :=
  if (d.find? (fun p => p.1 == k)).isSome then
    d.map (fun p => if p.1 == k then (k, v) else p)
  else d ++ [(k, v)]

/-- One entry of the symmetry report. -/
structure SymEntry where
  left : ℚ
  right : ℚ
  ratio : ℚ
  delta : ℚ
deriving Repr, DecidableEq

/-- `calc_symmetry` from body_analytics.py. -/
def calc_symmetry (measurements : List (String × ℚ)) : List (String × SymEntry) :=
  PAIRED_KEYS.filterMap (fun key =>
    match dictGet measurements (key ++ "_l"), dictGet measurements (key ++ "_r") with
    | some left, some right =>
      if 0 < max left right then
        some (key, { left := left, right := right,
                     ratio := round1 (min left right / max left right * 100),
                     delta := round1 |left - right| })
      else none
    | _, _ => none)

/-- Python truthiness chain `a or b` for an optional float against a default. -/
def pyOrQ : Option ℚ → ℚ → ℚ
  | some x, y => if x = 0 then y else x
  | none, y => y

/-- Base key used by `calc_percentiles`: the first paired key the
measurement key starts with, else the key itself. -/
def baseKeyFor (key : String) : String :=
  match PAIRED_KEYS.find? (fun pk => key.startsWith pk) with
  | some pk => pk
  | none => key

/-- One step of the `calc_percentiles` loop; the state is the percentile
dictionary together with the processed paired keys. -/
def percentileStep (sqrt2 : ℚ) (erf : ℚ → ℚ) (sex : String)
    (measurements : List (String × ℚ))
    (acc : List (String × ℚ) × List String) (kv : String × ℚ) :
    List (String × ℚ) × List String :=
  let base := baseKeyFor kv.1
  if PAIRED_KEYS.contains base then
    if acc.2.contains base then acc
    else
      let left := dictGet measurements (base ++ "_l")
      let right := dictGet measurements (base ++ "_r")
      let avg_val :=
        match left, right with
        | some l, some r => (l + r) / 2
        | _, _ => pyOrQ left (pyOrQ right kv.2)
      let processed := base :: acc.2
      match get_population_stats sex base with
      | some mstd => (dictInsert acc.1 base
          (_compute_percentile sqrt2 erf avg_val mstd.1 mstd.2), processed)
      | none => (acc.1, processed)
  else
    match get_population_stats sex kv.1 with
    | some mstd => (dictInsert acc.1 kv.1
        (_compute_percentile sqrt2 erf kv.2 mstd.1 mstd.2), acc.2)
    | none => acc

/-- `calc_percentiles` from body_analytics.py. -/
def calc_percentiles (sqrt2 : ℚ) (erf : ℚ → ℚ) (sex : String)
    (measurements : List (String × ℚ)) : List (String × ℚ) :=
  (measurements.foldl (percentileStep sqrt2 erf sex measurements) ([], [])).1

/-- `calc_aesthetic_rank` from body_analytics.py. -/
def calc_aesthetic_rank (percentiles : List (String × ℚ))
    (measurements : List (String × ℚ)) : Option ℚ :=
  if percentiles.isEmpty then none
  else
    let scores1 : List ℚ :=
      match dictGet measurements ( "shoulder" ), dictGet measurements ( "waist" ) with
      | some shoulder, some waist =>
        if shoulder ≠ 0 ∧ waist ≠ 0 ∧ 0 < waist then
          [min (shoulder / waist / (1618 / 1000) * 100) 100]
        else []
      | _, _ => []
    let scores2 := scores1 ++
      ([ "chest", "shoulder", "bicep", "thigh", "calf" ].filterMap
        (fun k => dictGet percentiles k))
    let scores3 := scores2 ++
      (match dictGet percentiles ( "waist" ) with
       | some p => [100 - p]
       | none => [])
    if scores3.isEmpty then none
    else some (round0 (max (100 - scores3.sum / scores3.length) 1))

/-- `_normalize_measurements`: lowercase and strip keys, then map the
`abdomen` → `waist` and `hip` → `hips` aliases. -/
def _normalize_measurements (measurements : List (String × ℚ)) :
    List (String × ℚ) :=
  let out := measurements.foldl (fun d kv => dictInsert d kv.1.toLower.trim kv.2) []
  let out2 :=
    match dictGet out ( "abdomen" ), dictGet out ( "waist" ) with
    | some v, none => dictInsert out ( "waist" ) v
    | _, _ => out
  match dictGet out2 ( "hip" ), dictGet out2 ( "hips" ) with
  | some v, none => dictInsert out2 ( "hips" ) v
  | _, _ => out2

/-- The flat stats record produced by `compute_all_stats`. -/
structure ComputedStats where
  bmr : ℚ
  bf_navy : Option ℚ
  bf_army : Option ℚ
  bf_cun_bae : Option ℚ
  bf_rfm : Option ℚ
  bf_multi : Option ℚ
  ffmi : Option ℚ
  percentiles : List (String × ℚ)
  aesthetic_rank : Option ℚ
  symmetry : List (String × SymEntry)
deriving Repr, DecidableEq

/-- `compute_all_stats` from body_analytics.py.  `log10`, `sqrt2` and `erf`
are the oracles for the corresponding `math` functions. -/
def compute_all_stats (log10 : ℚ → ℚ) (sqrt2 : ℚ) (erf : ℚ → ℚ)
    (weight_kg height_cm : ℚ) (age : ℤ) (sex : String)
    (measurements : Option (List (String × ℚ))) (manual_bf : Option ℚ) :
    ComputedStats :=
  let m : List (String × ℚ) :=
    match measurements with
    | some ms => if ms.isEmpty then [] else _normalize_measurements ms
    | none => []
  let bf : Option ℚ :=
    match manual_bf with
    | some b => some b
    | none =>
      if m.isEmpty then none
      else calc_navy_bf log10 sex height_cm (dictGet m ( "waist" ))
        (dictGet m ( "neck" )) (dictGet m ( "hips" ))
  let percentiles := if m.isEmpty then [] else calc_percentiles sqrt2 erf sex m
  { bmr := calc_bmr weight_kg height_cm age sex
    bf_navy := bf
    bf_army :=
      if m.isEmpty then none
      else calc_army_bf sex weight_kg (dictGet m ( "waist" )) (dictGet m ( "hips" ))
    bf_cun_bae := calc_cun_bae_bf weight_kg height_cm age sex
    bf_rfm :=
      if m.isEmpty then none
      else calc_rfm_bf sex height_cm (dictGet m ( "waist" ))
    bf_multi :=
      if m.isEmpty then none
      else calc_multi_girth_bf weight_kg height_cm sex (dictGet m ( "waist" ))
        (dictGet m ( "chest" )) (dictGet m ( "hips" ))
    ffmi := calc_ffmi weight_kg height_cm bf
    percentiles := percentiles
    aesthetic_rank :=
      if m.isEmpty then none else calc_aesthetic_rank percentiles m
    symmetry := if m.isEmpty then [] else calc_symmetry m }

theorem round1_le_of_le {x : ℚ} (b : ℤ) (h : x ≤ (b : ℚ)) : round1 x ≤ (b : ℚ) := by
  have := round1_mono h
  rwa [round1_int] at this

theorem le_round1_of_le {x : ℚ} (a : ℤ) (h : (a : ℚ) ≤ x) : (a : ℚ) ≤ round1 x := by
  have := round1_mono h
  rwa [round1_int] at this

/-- C1 (counterexample): compute_all_stats stores a supplied manual body-fat
value into bf_navy without clamping, so bf_navy = 99 escapes [2, 60]. -/
theorem compute_all_stats_manual_bf_unclamped :
    (compute_all_stats (fun _ => 0) 1 (fun _ => 0) 70 175 30 ( "male" ) none
      (some 99)).bf_navy = some 99 ∧ ¬((99 : ℚ) ≤ 60) :=
  ⟨rfl, by norm_num⟩

/-- C1 (amended): for every call to compute_all_stats, bf_army, bf_cun_bae,
bf_rfm and bf_multi are null or in [2, 60]; bf_navy likewise whenever
manual_bf is null, while a non-null manual_bf is stored into bf_navy
verbatim, without clamping. -/
theorem compute_all_stats_bf_fields (log10 : ℚ → ℚ) (sqrt2 : ℚ) (erf : ℚ → ℚ)
    (weight_kg height_cm : ℚ) (age : ℤ) (sex : String)
    (measurements : Option (List (String × ℚ))) (manual_bf : Option ℚ) :
    bfInRange (compute_all_stats log10 sqrt2 erf weight_kg height_cm age sex
      measurements manual_bf).bf_army ∧
    bfInRange (compute_all_stats log10 sqrt2 erf weight_kg height_cm age sex
      measurements manual_bf).bf_cun_bae ∧
    bfInRange (compute_all_stats log10 sqrt2 erf weight_kg height_cm age sex
      measurements manual_bf).bf_rfm ∧
    bfInRange (compute_all_stats log10 sqrt2 erf weight_kg height_cm age sex
      measurements manual_bf).bf_multi ∧
    (manual_bf = none →
      bfInRange (compute_all_stats log10 sqrt2 erf weight_kg height_cm age sex
        measurements manual_bf).bf_navy) ∧
    (∀ b : ℚ, manual_bf = some b →
      (compute_all_stats log10 sqrt2 erf weight_kg height_cm age sex
        measurements manual_bf).bf_navy = some b) := by
  refine ⟨?_, ?_, ?_, ?_, ?_, ?_⟩
  · simp only [compute_all_stats]
    split
    · exact bfInRange_none
    · exact calc_army_bf_range _ _ _ _
  · simp only [compute_all_stats]
    exact calc_cun_bae_bf_range _ _ _ _
  · simp only [compute_all_stats]
    split
    · exact bfInRange_none
    · exact calc_rfm_bf_range _ _ _
  · simp only [compute_all_stats]
    split
    · exact bfInRange_none
    · exact calc_multi_girth_bf_range _ _ _ _ _ _
  · intro hmb
    subst hmb
    simp only [compute_all_stats]
    split
    · exact bfInRange_none
    · exact calc_navy_bf_range _ _ _ _ _ _
  · intro b hmb
    subst hmb
    simp only [compute_all_stats]

/-- C1 (witness): instance of the amended statement at a concrete call. -/
theorem compute_all_stats_bf_fields_witness :
    bfInRange (compute_all_stats (fun _ => 0) 1 (fun _ => 0) 70 175 30
      ( "male" ) none none).bf_navy :=
  (compute_all_stats_bf_fields (fun _ => 0) 1 (fun _ => 0) 70 175 30
    ( "male" ) none none).2.2.2.2.1 rfl

/-- C5 (counterexample): the percentile is rounded to one decimal, so for a
bounded erf oracle it differs from the exact value 50·(1+erf(z/√2)). -/
theorem compute_percentile_rounds :
    _compute_percentile (1414 / 1000) (fun x => x / (1 + |x|)) 1 0 1 = 707 / 10 ∧
    ¬(_compute_percentile (1414 / 1000) (fun x => x / (1 + |x|)) 1 0 1 =
        50 * (1 + (fun x : ℚ => x / (1 + |x|)) ((1 - 0) / 1 / (1414 / 1000)))) := by
  have he : (fun x : ℚ => x / (1 + |x|)) ((1 - 0) / 1 / (1414 / 1000)) = 500 / 1207 := by
    simp only []
    rw [show ((1 : ℚ) - 0) / 1 / (1414 / 1000) = 500 / 707 by norm_num]
    rw [abs_of_pos (by norm_num : (0 : ℚ) < 500 / 707)]
    norm_num
  have hv : _compute_percentile (1414 / 1000) (fun x => x / (1 + |x|)) 1 0 1 = 707 / 10 := by
    rw [_compute_percentile, if_neg (by norm_num), _z_to_percentile]
    rw [show ((1 : ℚ) - 0) / 1 / (1414 / 1000) = 500 / 707 by norm_num]
    rw [abs_of_pos (by norm_num : (0 : ℚ) < 500 / 707)]
    rw [round1, round_eq]
    norm_num
  exact ⟨hv, by rw [hv, he]; norm_num⟩

/-- C5 (amended): with (mean, std) supplied, the percentile is exactly 50
when std ≤ 0 and otherwise is 50·(1+erf(z/√2)) rounded to one decimal,
with z = (value−mean)/std; and whenever the erf oracle is bounded by 1 in
absolute value, every percentile lies in [0, 100]. -/
theorem compute_percentile_spec (sqrt2 : ℚ) (erf : ℚ → ℚ) (value mean std : ℚ) :
    (std ≤ 0 → _compute_percentile sqrt2 erf value mean std = 50) ∧
    (0 < std →
      _compute_percentile sqrt2 erf value mean std =
        round1 (50 * (1 + erf ((value - mean) / std / sqrt2)))) ∧
    ((∀ t : ℚ, |erf t| ≤ 1) →
      0 ≤ _compute_percentile sqrt2 erf value mean std ∧
      _compute_percentile sqrt2 erf value mean std ≤ 100) := by
  refine ⟨?_, ?_, ?_⟩
  · intro h
    simp [_compute_percentile, h]
  · intro h
    rw [_compute_percentile, if_neg (not_le.mpr h), _z_to_percentile]
    congr 1
    ring
  · intro he
    rw [_compute_percentile]
    split
    · norm_num
    · rw [_z_to_percentile]
      have hb := he ((value - mean) / std / sqrt2)
      rw [abs_le] at hb
      constructor
      · have h0 : (0 : ℚ) ≤ 1 / 2 * (1 + erf ((value - mean) / std / sqrt2)) * 100 := by
          nlinarith [hb.1]
        exact_mod_cast le_round1_of_le 0 (by exact_mod_cast h0)
      · have h100 : 1 / 2 * (1 + erf ((value - mean) / std / sqrt2)) * 100 ≤ (100 : ℚ) := by
          nlinarith [hb.2]
        exact_mod_cast round1_le_of_le 100 (by exact_mod_cast h100)

/-- C5 (witness): instances of the amended statement at concrete inputs. -/
theorem compute_percentile_spec_witness :
    _compute_percentile 2 (fun _ => 0) 5 3 0 = 50 ∧
    (0 ≤ _compute_percentile 2 (fun _ => 0) 5 3 1 ∧
      _compute_percentile 2 (fun _ => 0) 5 3 1 ≤ 100) :=
  ⟨(compute_percentile_spec 2 (fun _ => 0) 5 3 0).1 (by norm_num),
   (compute_percentile_spec 2 (fun _ => 0) 5 3 1).2.2 (fun t => by norm_num)⟩

/-- C6 (counterexample): with a negative left measurement the symmetry ratio
is negative (outside [0, 100]), and delta is rounded to one decimal, so it
differs from the exact |left − right|. -/
theorem calc_symmetry_negative_ratio :
    ( "bicep",
      ({ left := -1, right := 7 / 3, ratio := -429 / 10, delta := 33 / 10 } :
        SymEntry)) ∈ calc_symmetry [( "bicep_l", -1 ), ( "bicep_r", 7 / 3 )] ∧
    ¬(0 ≤ (-429 / 10 : ℚ)) ∧ (33 / 10 : ℚ) ≠ |(-1 : ℚ) - 7 / 3| := by
  have habs : |(-1 : ℚ) - 7 / 3| = 10 / 3 := by
    rw [abs_of_nonpos] <;> norm_num
  refine ⟨?_, by norm_num, by rw [habs]; norm_num⟩
  rw [calc_symmetry, List.mem_filterMap]
  refine ⟨ "bicep", by decide, ?_⟩
  have hl : dictGet [( "bicep_l", (-1 : ℚ) ), ( "bicep_r", 7 / 3 )]
      ( "bicep" ++ "_l") = some (-1) := by simp [dictGet]
  have hr : dictGet [( "bicep_l", (-1 : ℚ) ), ( "bicep_r", 7 / 3 )]
      ( "bicep" ++ "_r") = some (7 / 3) := by simp [dictGet]
  simp only [hl, hr]
  rw [if_pos (by norm_num : (0 : ℚ) < max (-1) (7 / 3))]
  rw [min_eq_left (by norm_num : (-1 : ℚ) ≤ 7 / 3),
    max_eq_right (by norm_num : (-1 : ℚ) ≤ 7 / 3), habs]
  rw [show (-1 : ℚ) / (7 / 3) * 100 = -300 / 7 by norm_num]
  rw [show round1 (-300 / 7) = -429 / 10 by rw [round1, round_eq]; norm_num]
  rw [show round1 (10 / 3) = 33 / 10 by rw [round1, round_eq]; norm_num]

/-- C6 (amended): for every paired key present with both _l and _r values
whose maximum is positive, calc_symmetry produces an entry whose ratio is
100·min/max rounded to one decimal and whose delta is |left−right| rounded
to one decimal; the ratio never exceeds 100, and it lies in [0, 100]
whenever both sides are nonnegative. -/
theorem calc_symmetry_entry (ms : List (String × ℚ)) (key : String) (l r : ℚ)
    (hkey : key ∈ PAIRED_KEYS)
    (hl : dictGet ms (key ++ "_l") = some l)
    (hr : dictGet ms (key ++ "_r") = some r)
    (hmax : 0 < max l r) :
    (key, ({ left := l, right := r,
             ratio := round1 (min l r / max l r * 100),
             delta := round1 |l - r| } : SymEntry)) ∈ calc_symmetry ms ∧
    round1 (min l r / max l r * 100) ≤ 100 ∧
    (0 ≤ l → 0 ≤ r → 0 ≤ round1 (min l r / max l r * 100)) := by
  refine ⟨?_, ?_, ?_⟩
  · rw [calc_symmetry, List.mem_filterMap]
    refine ⟨key, hkey, ?_⟩
    simp only [hl, hr]
    rw [if_pos hmax]
  · have hdiv : min l r / max l r ≤ 1 := (div_le_one hmax).mpr (min_le_max)
    have : min l r / max l r * 100 ≤ (100 : ℚ) := by nlinarith
    exact_mod_cast round1_le_of_le 100 (by exact_mod_cast this)
  · intro hl0 hr0
    have hmin : (0 : ℚ) ≤ min l r := le_min hl0 hr0
    have : (0 : ℚ) ≤ min l r / max l r * 100 := by positivity
    exact_mod_cast le_round1_of_le 0 (by exact_mod_cast this)

/-- C6 (witness): instance of the amended statement at a concrete call. -/
theorem calc_symmetry_entry_witness :
    ( "bicep", ({ left := 30, right := 32,
                  ratio := round1 (min 30 32 / max 30 32 * 100),
                  delta := round1 (|(30 : ℚ) - 32|) } : SymEntry)) ∈
      calc_symmetry [( "bicep_l", 30 ), ( "bicep_r", 32 )] ∧
    round1 (min (30 : ℚ) 32 / max (30 : ℚ) 32 * 100) ≤ 100 ∧
    0 ≤ round1 (min (30 : ℚ) 32 / max (30 : ℚ) 32 * 100) :=
  have h := calc_symmetry_entry [( "bicep_l", 30 ), ( "bicep_r", 32 )]
    ( "bicep" ) 30 32 (by decide) (by decide) (by decide) (by norm_num)
  ⟨h.1, h.2.1, h.2.2 (by norm_num) (by norm_num)⟩

/-! ## PR detection (pr_detection.py).  The three all-time maxima obtained
from the database are modelled as optional values; `scalar() or 0` becomes
`Option.getD 0` (identical on every value the query can return, since
`0 or 0 = 0`). -/

inductive PRType where
  | WEIGHT
  | VOLUME
  | DURATION
deriving Repr, DecidableEq

/-- `detect_pr` from pr_detection.py, after the three max queries. -/
def detect_pr (max_weight max_volume : Option ℚ) (max_duration : Option ℤ)
    (weight : Option ℚ) (reps : Option ℤ) (duration_seconds : Option ℤ) :
    Bool × Option PRType :=
  let mw := max_weight.getD 0
  let mv := max_volume.getD 0
  let md := max_duration.getD 0
  if weight.any (fun w => decide (mw < w)) then (true, some PRType.WEIGHT)
  else if (weight.bind (fun w => reps.map (fun r => w * (r : ℚ)))).any
      (fun v => decide (mv < v)) then (true, some PRType.VOLUME)
  else if duration_seconds.any (fun d => decide (md < d)) then
    (true, some PRType.DURATION)
  else (false, none)

/-- The PR decision procedure exactly as the specification words it:
first-match over (1) weight present and strictly above the prior max
weight, (2) weight and reps present and weight·reps strictly above the
prior max volume, (3) duration present and strictly above the prior max
duration; otherwise not a PR. -/
def detectPRSpec (prior_max_weight prior_max_volume : ℚ) (prior_max_duration : ℤ)
    (weight : Option ℚ) (reps : Option ℤ) (duration_seconds : Option ℤ) :
    Bool × Option PRType :=
  let durationTest : Bool × Option PRType :=
    match duration_seconds with
    | some d => if prior_max_duration < d then (true, some PRType.DURATION)
                else (false, none)
    | none => (false, none)
  match weight, reps with
  | some w, some r =>
    if prior_max_weight < w then (true, some PRType.WEIGHT)
    else if prior_max_volume < w * (r : ℚ) then (true, some PRType.VOLUME)
    else durationTest
  | some w, none =>
    if prior_max_weight < w then (true, some PRType.WEIGHT)
    else durationTest
  | none, _ => durationTest

/-- C2: detect_pr evaluates weight, then volume, then duration, each with a
strict comparison, returning the first match — it coincides with the
specification's first-match procedure on the defaulted maxima — and a
candidate whose present metrics are all at or below the corresponding
prior maxima yields (false, none): ties are never records. -/
theorem detect_pr_first_match (max_weight max_volume : Option ℚ)
    (max_duration : Option ℤ) (weight : Option ℚ) (reps : Option ℤ)
    (duration_seconds : Option ℤ) :
    detect_pr max_weight max_volume max_duration weight reps duration_seconds =
      detectPRSpec (max_weight.getD 0) (max_volume.getD 0) (max_duration.getD 0)
        weight reps duration_seconds ∧
    ((∀ w : ℚ, weight = some w → w ≤ max_weight.getD 0) →
     (∀ (w : ℚ) (r : ℤ), weight = some w → reps = some r →
        w * (r : ℚ) ≤ max_volume.getD 0) →
     (∀ d : ℤ, duration_seconds = some d → d ≤ max_duration.getD 0) →
     detect_pr max_weight max_volume max_duration weight reps duration_seconds =
       (false, none)) := by
  constructor
  · rcases weight with _ | w <;> rcases reps with _ | r <;>
      rcases duration_seconds with _ | d <;>
      simp [detect_pr, detectPRSpec, Option.any] <;>
      split_ifs <;> simp_all
  · intro hw hv hd
    rcases weight with _ | w <;> rcases reps with _ | r <;>
      rcases duration_seconds with _ | d <;>
      simp [detect_pr, Option.any] <;>
      first
        | exact hd _ rfl
        | exact hw _ rfl
        | rw [if_neg (not_lt.mpr (hw _ rfl)), if_neg (not_lt.mpr (hv _ _ rfl rfl)),
              if_neg (not_lt.mpr (hd _ rfl))]
        | rw [if_neg (not_lt.mpr (hw _ rfl)), if_neg (not_lt.mpr (hd _ rfl))]
        | rw [if_neg (not_lt.mpr (hw _ rfl)), if_neg (not_lt.mpr (hv _ _ rfl rfl))]

/-- C2 (witness): a tied candidate at concrete values is not a PR. -/
theorem detect_pr_first_match_witness :
    detect_pr (some 5) (some 15) (some 9) (some 5) (some 3) (some 9) =
      (false, none) :=
  (detect_pr_first_match (some 5) (some 15) (some 9) (some 5) (some 3)
    (some 9)).2
    (fun w hw => by
      simp only [Option.some.injEq] at hw
      simp [← hw])
    (fun w r hw hr => by
      simp only [Option.some.injEq] at hw hr
      simp only [← hw, ← hr, Option.getD_some]
      norm_num)
    (fun d hd => by
      simp only [Option.some.injEq] at hd
      simp [← hd])

/-- C10: with no prior sets, each absent maximum is treated as 0: a
candidate with positive weight is flagged as a weight PR, while a
candidate with weight 0 (and duration 0) is not flagged even though no
prior record exists. -/
theorem detect_pr_no_prior (w : ℚ) (r : Option ℤ) (d : Option ℤ) :
    (0 < w → detect_pr none none none (some w) r d = (true, some PRType.WEIGHT)) ∧
    detect_pr none none none (some 0) r (some 0) = (false, none) ∧
    detect_pr none none none none r (some 0) = (false, none) := by
  refine ⟨?_, ?_, ?_⟩
  · intro hw
    simp [detect_pr, Option.any, hw]
  · rcases r with _ | r <;> simp [detect_pr, Option.any]
  · rcases r with _ | r <;> simp [detect_pr, Option.any]

/-- C10 (witness): instance of the statement at concrete inputs. -/
theorem detect_pr_no_prior_witness :
    detect_pr none none none (some 20) (some 5) none =
      (true, some PRType.WEIGHT) :=
  (detect_pr_no_prior 20 (some 5) none).1 (by norm_num)

/-! ## Streaks (endpoints/streak.py).  Calendar dates are modelled as
integer day numbers; the endpoint's distinct, descending-ordered date list
is the function's input, and `today` is a parameter. -/

structure StreakResult where
  current_streak : ℕ
  longest_streak : ℕ
  last_workout_date : Option ℤ
deriving Repr, DecidableEq

/-- The current-streak walk of get_streak: starting from the previous date,
count entries while each is exactly one day before its predecessor. -/
def consecRun : ℤ → List ℤ → ℕ
  | _, [] => 0
  | prev, d :: rest => if d = prev - 1 then 1 + consecRun d rest else 0

/-- The longest-streak scan of get_streak: running counter `run`, reset to 1
at each gap, tracking the maximum in `longest`. -/
def longestLoop : ℤ → ℕ → ℕ → List ℤ → ℕ
  | _, _, longest, [] => longest
  | prev, run, longest, d :: rest =>
    if d = prev - 1 then longestLoop d (run + 1) (max longest (run + 1)) rest
    else longestLoop d 1 longest rest

/-- `get_streak` from streak.py, after the date query: the computation on
the descending list of distinct workout dates. -/
def get_streak (today : ℤ) (workout_dates : List ℤ) : StreakResult :=
  match workout_dates with
  | [] => { current_streak := 0, longest_streak := 0, last_workout_date := none }
  | last :: rest =>
    let current := if today - 1 ≤ last then 1 + consecRun last rest else 0
    { current_streak := current
      longest_streak := longestLoop last 1 1 rest
      last_workout_date := some last }

/-- C3 (counterexample): a single workout date strictly after today (day 1
with today = day 0) yields current_streak 1, although that date is neither
today nor yesterday. -/
theorem get_streak_future_date :
    (get_streak 0 [1]).current_streak = 1 ∧ ¬((1 : ℤ) = 0 ∨ (1 : ℤ) = 0 - 1) := by
  constructor
  · rfl
  · decide

/-- C3 (amended): current_streak is 0 unless the most recent date is on or
after yesterday (today − 1) — a check that also admits dates after today —
and when the most recent date passes that check, current_streak is 1 plus
the number of consecutive entries of the descending list with each date
exactly one day before its predecessor, stopping at the first gap. -/
theorem get_streak_current (today : ℤ) (dates : List ℤ) :
    (dates = [] → (get_streak today dates).current_streak = 0) ∧
    (∀ (d : ℤ) (rest : List ℤ), dates = d :: rest → d < today - 1 →
      (get_streak today dates).current_streak = 0) ∧
    (∀ (d : ℤ) (rest : List ℤ), dates = d :: rest → today - 1 ≤ d →
      (get_streak today dates).current_streak = 1 + consecRun d rest) := by
  refine ⟨?_, ?_, ?_⟩
  · intro h
    subst h
    rfl
  · intro d rest h hlt
    subst h
    simp only [get_streak]
    rw [if_neg (not_le.mpr hlt)]
  · intro d rest h hle
    subst h
    simp only [get_streak]
    rw [if_pos hle]

/-- C3 (witness): instance of the amended statement at concrete inputs. -/
theorem get_streak_current_witness :
    (get_streak 10 [10, 9]).current_streak = 1 + consecRun 10 [9] :=
  (get_streak_current 10 [10, 9]).2.2 10 [9] rfl (by norm_num)

theorem longestLoop_ge (l : List ℤ) : ∀ (prev : ℤ) (run long : ℕ),
    1 ≤ run → run ≤ long →
    run + consecRun prev l ≤ longestLoop prev run long l ∧
    long ≤ longestLoop prev run long l := by
  induction l with
  | nil =>
    intro prev run long h1 h2
    simp only [longestLoop, consecRun]
    omega
  | cons d rest ih =>
    intro prev run long h1 h2
    simp only [longestLoop, consecRun]
    split_ifs with hd
    · have h := ih d (run + 1) (max long (run + 1)) (by omega) (le_max_right _ _)
      constructor
      · omega
      · exact le_trans (le_max_left _ _) h.2
    · have h := ih d 1 long (le_refl 1) (h1.trans h2)
      omega

/-- C9: the streak computation always returns current_streak ≤
longest_streak; on the empty date list both are 0, and on a non-empty list
longest_streak is at least 1. -/
theorem get_streak_current_le_longest (today : ℤ) (dates : List ℤ) :
    (get_streak today dates).current_streak ≤
      (get_streak today dates).longest_streak ∧
    (dates = [] → (get_streak today dates).current_streak = 0 ∧
      (get_streak today dates).longest_streak = 0) ∧
    (dates ≠ [] → 1 ≤ (get_streak today dates).longest_streak) := by
  cases dates with
  | nil => exact ⟨le_refl 0, fun _ => ⟨rfl, rfl⟩, fun h => absurd rfl h⟩
  | cons a rest =>
    have h := longestLoop_ge rest a 1 1 (le_refl 1) (le_refl 1)
    refine ⟨?_, by simp, fun _ => h.2⟩
    simp only [get_streak]
    split_ifs with hq
    · exact h.1
    · exact Nat.zero_le _

/-- C9 (witness): instance of the statement at concrete inputs. -/
theorem get_streak_current_le_longest_witness :
    1 ≤ (get_streak 5 [5]).longest_streak :=
  (get_streak_current_le_longest 5 [5]).2.2 (by simp)

/-! ## Calorie estimation (calorie_estimation.py) -/

def MET_LIGHT : ℚ := 7 / 2

def MET_MODERATE : ℚ := 5

def MET_VIGOROUS : ℚ := 6

def DEFAULT_MET : ℚ := MET_MODERATE

def TONNAGE_PER_MIN_LIGHT_MAX : ℚ := 80

def TONNAGE_PER_MIN_VIGOROUS_MIN : ℚ := 200

def MET_ACTIVE_LIFTING : ℚ := 11 / 2

def MET_REST_BETWEEN_SETS : ℚ := 2

/-- `get_met_for_intensity`: `not intensity` in the source is true for both
None and the empty string. -/
def get_met_for_intensity : Option String → ℚ
  | none => DEFAULT_MET
  | some s =>
    if s = "" then DEFAULT_MET
    else
      let i := s.trim.toLower
      if i = "light" then MET_LIGHT
      else if i = "vigorous" then MET_VIGOROUS
      else MET_MODERATE

/-- `infer_intensity_from_tonnage` from calorie_estimation.py. -/
def infer_intensity_from_tonnage (tonnage_kg duration_minutes : ℚ) : String :=
  if duration_minutes ≤ 0 ∨ tonnage_kg ≤ 0 then "moderate"
  else
    let kg_per_min := tonnage_kg / duration_minutes
    if kg_per_min < TONNAGE_PER_MIN_LIGHT_MAX then "light"
    else if TONNAGE_PER_MIN_VIGOROUS_MIN ≤ kg_per_min then "vigorous"
    else "moderate"

/-- `estimate_calories` from calorie_estimation.py. -/
def estimate_calories (weight_kg duration_minutes : ℚ) (intensity : Option String)
    (tonnage_kg active_seconds rest_seconds : Option ℚ) : ℚ :=
  if weight_kg ≤ 0 then 0
  else
    let base := 7 / 2 * weight_kg / 200
    let tier2 : ℚ :=
      if duration_minutes ≤ 0 then 0
      else
        let intensity2 : Option String :=
          match intensity, tonnage_kg with
          | none, some t =>
            if 0 < t then some (infer_intensity_from_tonnage t duration_minutes)
            else intensity
          | _, _ => intensity
        round1 (get_met_for_intensity intensity2 * base * duration_minutes)
    match active_seconds, rest_seconds with
    | some a, some r =>
      if 0 < a ∨ 0 < r then
        round1 (MET_ACTIVE_LIFTING * base * (max 0 a / 60) +
          MET_REST_BETWEEN_SETS * base * (max 0 r / 60))
      else tier2
    | _, _ => tier2

/-- C4 (counterexample): with active = −60 s and rest = 100 s the code
clamps the negative term to zero and rounds, returning 4.1, which differs
from the claim's exact formula value (≈ −2.65). -/
theorem estimate_calories_clamps_and_rounds :
    estimate_calories 70 0 none none (some (-60)) (some 100) = 41 / 10 ∧
    (41 / 10 : ℚ) ≠ 11 / 2 * (7 / 2 * 70 / 200) * (-60 / 60) +
      2 * (7 / 2 * 70 / 200) * (100 / 60) := by
  constructor
  · unfold estimate_calories
    rw [if_neg (by norm_num : ¬(70 : ℚ) ≤ 0)]
    simp only []
    rw [if_pos (by norm_num : (0 : ℚ) < -60 ∨ (0 : ℚ) < 100)]
    rw [show max (0 : ℚ) (-60) = 0 by norm_num, show max (0 : ℚ) 100 = 100 by norm_num]
    rw [MET_ACTIVE_LIFTING, MET_REST_BETWEEN_SETS]
    rw [show (11 : ℚ) / 2 * (7 / 2 * 70 / 200) * (0 / 60) +
      2 * (7 / 2 * 70 / 200) * (100 / 60) = 49 / 12 by norm_num]
    rw [round1, round_eq]
    norm_num
  · norm_num

/-- C4 (amended): for weight_kg > 0, whenever both active_seconds and
rest_seconds are supplied and at least one is positive, estimate_calories
returns 5.5·(3.5·weight/200)·(max(0,active)/60) +
2.0·(3.5·weight/200)·(max(0,rest)/60), rounded to one decimal, regardless
of the intensity, tonnage and duration arguments. -/
theorem estimate_calories_tier1 (weight_kg duration_minutes : ℚ)
    (intensity : Option String) (tonnage_kg : Option ℚ) (a r : ℚ)
    (hw : 0 < weight_kg) (h : 0 < a ∨ 0 < r) :
    estimate_calories weight_kg duration_minutes intensity tonnage_kg
        (some a) (some r) =
      round1 (11 / 2 * (7 / 2 * weight_kg / 200) * (max 0 a / 60) +
        2 * (7 / 2 * weight_kg / 200) * (max 0 r / 60)) := by
  unfold estimate_calories
  rw [if_neg (not_le.mpr hw)]
  simp only []
  rw [if_pos h, MET_ACTIVE_LIFTING, MET_REST_BETWEEN_SETS]

/-- C4 (witness): instance of the amended statement at concrete inputs. -/
theorem estimate_calories_tier1_witness :
    estimate_calories 80 30 (some ( "vigorous" )) (some 1000)
        (some 120) (some 60) =
      round1 (11 / 2 * (7 / 2 * 80 / 200) * (max 0 120 / 60) +
        2 * (7 / 2 * 80 / 200) * (max 0 60 / 60)) :=
  estimate_calories_tier1 80 30 (some ( "vigorous" )) (some 1000) 120 60
    (by norm_num) (Or.inl (by norm_num))

/-! ## Muscle recovery (endpoints/analytics.py, muscle_recovery).  The rows
of the 28-day query are modelled as records; timestamps are rationals in
seconds; `exp` is the oracle for `math.exp`. -/

/-- One row of the 28-day set query: a workout set joined with its
exercise's muscle-group ids and the workout start timestamp. -/
structure SetRow where
  weight : Option ℚ
  reps : Option ℤ
  duration_seconds : Option ℤ
  workout_id : ℤ
  started_at : Option ℚ
  primary_mg : Option ℤ
  secondary_mg : Option ℤ
  tertiary_mg : Option ℤ
deriving Repr, DecidableEq

/-- `_volume_weight` from analytics.py. -/
def _volume_weight (primary secondary tertiary : Bool) : ℚ :=
  if primary then 1
  else if secondary then 1 / 2
  else if tertiary then 1 / 4
  else 0

/-- Per-set volume for one muscle-group slot: duration-based when the
duration is truthy (present and nonzero), else weight·reps, both scaled by
the slot factor. -/
def slotVol (row : SetRow) (factor : ℚ) : ℚ :=
  let weight := row.weight.getD 0
  let reps := row.reps.getD 0
  let duration := row.duration_seconds.getD 0
  if duration ≠ 0 then (duration : ℚ) * factor else weight * (reps : ℚ) * factor

/-- Volume a single row contributes to muscle group `mg`, over its
primary, secondary and tertiary slots. -/
def rowVolFor (mg : ℤ) (row : SetRow) : ℚ :=
  (if row.primary_mg = some mg then slotVol row (_volume_weight true false false)
   else 0) +
  (if row.secondary_mg = some mg then slotVol row (_volume_weight false true false)
   else 0) +
  (if row.tertiary_mg = some mg then slotVol row (_volume_weight false false true)
   else 0)

/-- A row touches a muscle group when any of its three slots carries it. -/
def touches (row : SetRow) (mg : ℤ) : Bool :=
  row.primary_mg == some mg || row.secondary_mg == some mg ||
    row.tertiary_mg == some mg

/-- 28-day total volume accumulated for `mg`. -/
def total_vol_28d (rows : List SetRow) (mg : ℤ) : ℚ :=
  (rows.map (rowVolFor mg)).sum

/-- Volume accumulated for `mg` over rows whose start time is present and
within the trailing 48 hours. -/
def recent_vol (cutoff_48h : ℚ) (rows : List SetRow) (mg : ℤ) : ℚ :=
  ((rows.filter (fun row =>
    match row.started_at with
    | some t => decide (cutoff_48h ≤ t)
    | none => false)).map (rowVolFor mg)).sum

/-- Distinct workout ids among the rows touching `mg` (session count). -/
def session_ids (rows : List SetRow) (mg : ℤ) : List ℤ :=
  ((rows.filter (fun row => touches row mg)).map SetRow.workout_id).dedup

/-- Most recent start timestamp among rows touching `mg`. -/
def last_trained (rows : List SetRow) (mg : ℤ) : Option ℚ :=
  rows.foldl (fun acc row =>
    if touches row mg then
      match row.started_at, acc with
      | some t, some cur => if cur < t then some t else some cur
      | some t, none => some t
      | none, _ => acc
    else acc) none

/-- The per-muscle fatigue computation of `muscle_recovery`: returns the
(fatigue_score, overstrained) pair for muscle group `mg`. -/
def muscleScore (expQ : ℚ → ℚ) (now cutoff_48h : ℚ) (rows : List SetRow)
    (mg : ℤ) : ℚ × Bool :=
  let sessions := (session_ids rows mg).length
  let avg_session_vol := total_vol_28d rows mg / (max sessions 1 : ℕ)
  let recent := recent_vol cutoff_48h rows mg
  let decay : ℚ :=
    match last_trained rows mg with
    | some lt => expQ (-(max ((now - lt) / 3600) 0) / 24)
    | none => 0
  let raw_fatigue :=
    if 0 < avg_session_vol then recent / avg_session_vol * decay
    else (if 0 < recent then 1 else 0) * decay
  let fatigue_score := round2 (min (max raw_fatigue 0) 1)
  let overstrained :=
    if 0 < avg_session_vol then decide (avg_session_vol * (13 / 10) < recent)
    else false
  (fatigue_score, overstrained)

theorem last_trained_none {rows : List SetRow} {mg : ℤ}
    (h : ∀ row ∈ rows, touches row mg = false) :
    last_trained rows mg = none := by
  unfold last_trained
  induction rows with
  | nil => rfl
  | cons a l ih =>
    rw [List.foldl_cons]
    rw [if_neg (by rw [h a (List.mem_cons_self a l)]; exact Bool.false_ne_true)]
    exact ih (fun row hr => h row (List.mem_cons_of_mem a hr))

theorem rowVolFor_eq_zero {row : SetRow} {mg : ℤ}
    (h : touches row mg = false) : rowVolFor mg row = 0 := by
  unfold touches at h
  simp only [Bool.or_eq_false_iff, beq_eq_false_iff_ne, ne_eq] at h
  unfold rowVolFor
  rw [if_neg h.1.1, if_neg h.1.2, if_neg h.2]
  norm_num

/-- C8: a muscle group with no set entries in the trailing 28-day window
(hence no accumulated volume and no last-trained timestamp) gets
fatigue_score 0.0 and overstrained = False. -/
theorem muscleScore_never_trained (expQ : ℚ → ℚ) (now cutoff_48h : ℚ)
    (rows : List SetRow) (mg : ℤ)
    (h : ∀ row ∈ rows, touches row mg = false) :
    muscleScore expQ now cutoff_48h rows mg = (0, false) := by
  have htot : total_vol_28d rows mg = 0 := by
    unfold total_vol_28d
    rw [List.sum_eq_zero]
    intro x hx
    rw [List.mem_map] at hx
    obtain ⟨row, hrow, hv⟩ := hx
    rw [← hv]
    exact rowVolFor_eq_zero (h row hrow)
  have hrec : recent_vol cutoff_48h rows mg = 0 := by
    unfold recent_vol
    rw [List.sum_eq_zero]
    intro x hx
    rw [List.mem_map] at hx
    obtain ⟨row, hrow, hv⟩ := hx
    rw [← hv]
    exact rowVolFor_eq_zero (h row (List.mem_of_mem_filter hrow))
  have hlt : last_trained rows mg = none := last_trained_none h
  unfold muscleScore
  rw [htot, hrec, hlt]
  simp only [zero_div]
  rw [if_neg (lt_irrefl 0)]
  rw [if_neg (lt_irrefl 0)]
  have : round2 (min (max ((0 : ℚ) * 0) 0) 1) = 0 := by
    rw [show min (max ((0 : ℚ) * 0) 0) 1 = ((0 : ℤ) : ℚ) by norm_num]
    rw [round2, show (100 : ℚ) * ((0 : ℤ) : ℚ) = ((0 : ℤ) : ℚ) by norm_num,
      round_intCast]
    norm_num
  rw [this]
  simp

/-- C8 (witness): instance at a concrete call with one row that trains a
different muscle group. -/
theorem muscleScore_never_trained_witness :
    muscleScore (fun _ => 1) 1000 0
      [{ weight := some 50, reps := some 5, duration_seconds := none,
         workout_id := 1, started_at := some 500,
         primary_mg := some 2, secondary_mg := none, tertiary_mg := none }]
      7 = (0, false) :=
  muscleScore_never_trained (fun _ => 1) 1000 0 _ 7
    (fun row hr => by
      rw [List.mem_singleton] at hr
      subst hr
      decide)

end WorkoutTracker
